import Mathlib

/-!
Verification of the `dashboard-rumah` dashboard (files `dashboard_rumah.py` and
`dashboard_rumah_v2.py`) against its natural-language specification.

Embedding conventions:
* Python floats are modelled as exact rationals (`ℚ`); the claims under test are
  algebraic identities and inequalities that hold for real arithmetic, and the
  spec's own formulas are stated over exact arithmetic.
* A pandas `DataFrame` of listings is modelled as a `List Listing`; `NaN` cells
  are modelled as `none`. Comparisons with `NaN` are false in pandas, which is
  mirrored by the `Option` matches below.
* Python strings are modelled as `List Char` (`Str`); `str.lower` is
  `Char.toLower` per character and `str.strip` removes whitespace at both ends.
* The Streamlit control flow (`st.stop`, `st.error`) is modelled with `Except`:
  an early stop becomes an `error` value, and code after the stop point is only
  reachable in the `ok` branch.
-/

namespace DashboardRumah

/-- Python strings, modelled as lists of characters. -/
abbrev Str := List Char

/-! ## Mortgage (KPR) annuity calculator, `dashboard_rumah_v2.py` lines 400-421 -/

/-- Result record of the KPR simulation block (the local variables computed
after the `Hitung Simulasi KPR` button, lines 404-421 of
`dashboard_rumah_v2.py`). -/
structure HasilKPR where
  harga_rumah_rp : ℚ
  dp_rp : ℚ
  pokok_pinjaman : ℚ
  i_bulanan : ℚ
  n_bulan : ℕ
  cicilan_bulanan : ℚ
  total_bayar : ℚ
  total_bunga : ℚ
deriving DecidableEq

/-- The arithmetic of the KPR simulation, lines 404-421 of
`dashboard_rumah_v2.py`: convert the price from millions to rupiah, subtract
the down payment, derive the monthly rate and month count, and apply the
annuity formula (`pokok * i / (1 - (1+i) ** (-n))` when `i > 0`, else
`pokok / n`).  Python's `**` on a float base and negative integer exponent is
modelled by `zpow` on `ℚ`. -/
def hitungKPR (harga_juta dp_persen bunga_tahunan : ℚ) (tenor_tahun : ℕ) : HasilKPR :=
  let harga_rumah_rp := harga_juta * 1000000
  let dp_rp := harga_rumah_rp * dp_persen / 100
  let pokok_pinjaman := harga_rumah_rp - dp_rp
  let i_bulanan := bunga_tahunan / 12 / 100
  let n_bulan := tenor_tahun * 12
  let cicilan_bulanan :=
    if 0 < i_bulanan then
      pokok_pinjaman * i_bulanan / (1 - (1 + i_bulanan) ^ (-(n_bulan : ℤ)))
    else
      pokok_pinjaman / (n_bulan : ℚ)
  let total_bayar := cicilan_bulanan * (n_bulan : ℚ)
  { harga_rumah_rp := harga_rumah_rp
    dp_rp := dp_rp
    pokok_pinjaman := pokok_pinjaman
    i_bulanan := i_bulanan
    n_bulan := n_bulan
    cicilan_bulanan := cicilan_bulanan
    total_bayar := total_bayar
    total_bunga := total_bayar - pokok_pinjaman }

/-- The guarded entry point of the simulation (lines 400-403 of
`dashboard_rumah_v2.py`): the only validity check performed before the
computation is `harga_juta <= 0` (the `None` case cannot occur in manual
mode).  There is no check on `pokok_pinjaman` or `n_bulan`. -/
def simulasiKPR (harga_juta dp_persen bunga_tahunan : ℚ) (tenor_tahun : ℕ) :
    Except String HasilKPR :=
  if harga_juta ≤ 0 then .error "Harga rumah tidak valid."
  else .ok (hitungKPR harga_juta dp_persen bunga_tahunan tenor_tahun)

/-! ## Annuity mathematics

The denominator of the annuity formula factors through the present-value
factor of an annuity: `1 - (1+i)^(-n) = i * annuityFactor i n` where
`annuityFactor i n = Σ_{k=1..n} (1+i)^(-k)`.  All the monotonicity facts about
the monthly payment follow from termwise monotonicity of this sum. -/

/-- Present-value factor `Σ_{k=1..n} (1+i)^(-k)` of an `n`-month annuity at
monthly rate `i`, written with `Nat` powers and inverses. -/
def annuityFactor (i : ℚ) : ℕ → ℚ
  | 0 => 0
  | n + 1 => annuityFactor i n + ((1 + i) ^ (n + 1))⁻¹

/-! ## Dataset loader and normalizer, `dashboard_rumah_v2.py` lines 32-53

The same loader appears verbatim in `dashboard_rumah.py` lines 31-52. -/

/-- A raw numeric CSV cell before `pd.to_numeric(..., errors="coerce")`:
either a parsable number or an unparsable / missing value (which pandas
coerces to `NaN`, modelled as `malformed`). -/
inductive RawField where
  | num (q : ℚ)
  | malformed
deriving DecidableEq

/-- One raw CSV row with the columns the dashboard uses (the optional
`Unnamed: 0` index column, dropped at line 37-38, is not part of the model). -/
structure RawListing where
  city : Option Str
  location : Option Str
  title : Option Str
  price : RawField
  area : RawField
  building_area : RawField
  bedrooms : RawField
  bathrooms : RawField
  garage : RawField
deriving DecidableEq

/-- One normalized listing row after `load_data`. -/
structure Listing where
  city : Option Str
  location : Option Str
  title : Option Str
  price : Option ℚ
  area : Option ℚ
  building_area : Option ℚ
  bedrooms : Option ℚ
  bathrooms : Option ℚ
  garage : Option ℚ
  price_per_m2 : Option ℚ
deriving DecidableEq

/-- `pd.to_numeric(col, errors="coerce")` (line 44): parsable values pass
through, unparsable values become `NaN` (`none`). -/
def toNumeric : RawField → Option ℚ
  | .num q => some q
  | .malformed => none

/-- The derived column (lines 47-51):
`np.where(df["area"] > 0, df["price"] / df["area"], np.nan)`.
A `NaN` area fails the `> 0` comparison, and a `NaN` price propagates through
the division. -/
def pricePerM2 (price area : Option ℚ) : Option ℚ :=
  match area with
  | some a => if 0 < a then price.map (fun p => p / a) else none
  | none => none

/-- Normalization of one row inside `load_data` (lines 41-51). -/
def normalizeRow (w : RawListing) : Listing :=
  { city := w.city
    location := w.location
    title := w.title
    price := toNumeric w.price
    area := toNumeric w.area
    building_area := toNumeric w.building_area
    bedrooms := toNumeric w.bedrooms
    bathrooms := toNumeric w.bathrooms
    garage := toNumeric w.garage
    price_per_m2 := pricePerM2 (toNumeric w.price) (toNumeric w.area) }

/-- `load_data` (lines 32-53) applied to an already-parsed CSV: coerce the
numeric columns and attach the derived `price_per_m2` column. -/
def load_data (raw : List RawListing) : List Listing :=
  raw.map normalizeRow

/-! ## Sidebar filter, `dashboard_rumah_v2.py` lines 69-144 -/

/-- The filter state collected from the sidebar widgets: selected city list,
price range, land-area range, minimum bedrooms and bathrooms, and the raw
keyword text. -/
structure FilterCriteria where
  filter_kota : List Str
  price_lo : ℚ
  price_hi : ℚ
  area_lo : ℚ
  area_hi : ℚ
  filter_bedrooms : ℚ
  filter_bathrooms : ℚ
  keyword : Str
deriving DecidableEq

/-- `df["city"].isin(filter_kota)`: a `NaN` city is in no list. -/
def isinOpt (x : Option Str) (l : List Str) : Bool :=
  match x with
  | some s => l.contains s
  | none => false

/-- `df[col].between(lo, hi)`: inclusive on both ends, false on `NaN`. -/
def betweenOpt (x : Option ℚ) (lo hi : ℚ) : Bool :=
  match x with
  | some v => decide (lo ≤ v) && decide (v ≤ hi)
  | none => false

/-- `df[col] >= b`: false on `NaN`. -/
def geOpt (x : Option ℚ) (b : ℚ) : Bool :=
  match x with
  | some v => decide (b ≤ v)
  | none => false

/-- The conjunction of the five sidebar predicates (lines 126-132). -/
def rowMatches (c : FilterCriteria) (r : Listing) : Bool :=
  isinOpt r.city c.filter_kota &&
  betweenOpt r.price c.price_lo c.price_hi &&
  betweenOpt r.area c.area_lo c.area_hi &&
  geOpt r.bedrooms c.filter_bedrooms &&
  geOpt r.bathrooms c.filter_bathrooms

/-- The filter stage at lines 126-132, before the keyword stage. -/
def baseFilter (df : List Listing) (c : FilterCriteria) : List Listing :=
  df.filter (rowMatches c)

/-- Python `str.strip()`: drop whitespace from both ends. -/
def pyStrip (s : Str) : Str :=
  ((s.dropWhile Char.isWhitespace).reverse.dropWhile Char.isWhitespace).reverse

/-- Python `str.lower()` per character. -/
def pyLower (s : Str) : Str :=
  s.map Char.toLower

/-- Literal substring containment, the intended meaning of
`str.contains` here.  The code actually calls pandas
`Series.str.contains(kw, na=False)`, whose default `regex=True` interprets
`kw` as a regular expression; for keywords free of regex metacharacters that
is the same as this literal containment test (see
`fieldContainsRegexDot` below for the divergence). -/
def containsSub (needle hay : Str) : Bool :=
  decide (needle <:+: hay)

/-- `series.str.lower().str.contains(kw, na=False)` for one cell: `NaN`
(`none`) counts as a non-match, never an error. -/
def fieldContains (kw : Str) (f : Option Str) : Bool :=
  match f with
  | some s => containsSub kw (pyLower s)
  | none => false

/-- The disjunction over title and location at lines 136-139. -/
def matchesKeyword (kw : Str) (r : Listing) : Bool :=
  fieldContains kw r.title || fieldContains kw r.location

/-- The keyword stage (lines 134-139): applied only when the stripped keyword
is non-empty (Python truthiness of `keyword.strip()`), with the keyword
stripped and lowercased. -/
def applyKeyword (keyword : Str) (l : List Listing) : List Listing :=
  if (pyStrip keyword).isEmpty then l
  else l.filter (matchesKeyword (pyLower (pyStrip keyword)))

/-- `df_filtered` (lines 126-139): the five-predicate stage followed by the
keyword stage. -/
def df_filtered (df : List Listing) (c : FilterCriteria) : List Listing :=
  applyKeyword c.keyword (baseFilter df c)

/-! ### The pandas regex semantics of the keyword test

`Series.str.contains` defaults to `regex=True`.  To exhibit the divergence
from the spec's literal-substring reading on a concrete keyword, the fragment
of Python regular expressions consisting of literal characters and the `.`
wildcard is modelled exactly: `re.search` tries a match at every start
position, and `.` matches any single character. -/

/-- Match a literal-and-dot pattern at the start of the haystack. -/
def regexDotMatchHere : Str → Str → Bool
  | [], _ => true
  | _ :: _, [] => false
  | p :: ps, h :: hs => (p == '.' || p == h) && regexDotMatchHere ps hs

/-- `re.search` for a literal-and-dot pattern: try every start position. -/
def regexDotSearch (pat : Str) (hay : Str) : Bool :=
  regexDotMatchHere pat hay ||
    match hay with
    | [] => false
    | _ :: hs => regexDotSearch pat hs

/-- One cell of `series.str.lower().str.contains(kw, na=False)` under the
actual pandas default `regex=True`, for patterns in the literal-and-dot
fragment. -/
def fieldContainsRegexDot (kw : Str) (f : Option Str) : Bool :=
  match f with
  | some s => regexDotSearch kw (pyLower s)
  | none => false

/-! ## KPI aggregates and the empty-result stop, lines 141-163 -/

/-- `Series.mean()` with the default `skipna=True`: `NaN` entries are
excluded, and the mean of no valid entries is `NaN`. -/
def meanOpt (l : List (Option ℚ)) : Option ℚ :=
  let v := l.filterMap id
  if v.isEmpty then none else some (v.sum / (v.length : ℚ))

/-- `Series.median()` with the default `skipna=True`. -/
def medianOpt (l : List (Option ℚ)) : Option ℚ :=
  let v := (l.filterMap id).mergeSort (fun a b => decide (a ≤ b))
  if v.isEmpty then none
  else if v.length % 2 = 1 then some (v.getD (v.length / 2) 0)
  else some ((v.getD (v.length / 2 - 1) 0 + v.getD (v.length / 2) 0) / 2)

/-- The five KPI metrics of lines 151-155. -/
structure KPI where
  total_listing : ℕ
  avg_price : Option ℚ
  median_price : Option ℚ
  avg_area : Option ℚ
  avg_price_m2 : Option ℚ
deriving DecidableEq

/-- The error condition signalled at lines 142-144 (`st.warning` followed by
`st.stop()`). -/
inductive DashError where
  | emptyFilterResult
deriving DecidableEq

def computeKPI (v : List Listing) : KPI :=
  { total_listing := v.length
    avg_price := meanOpt (v.map (fun r => r.price))
    median_price := medianOpt (v.map (fun r => r.price))
    avg_area := meanOpt (v.map (fun r => r.area))
    avg_price_m2 := meanOpt (v.map (fun r => r.price_per_m2)) }

/-- The render pass from the filter to the KPI block (lines 126-155): if the
filtered view is empty the dashboard warns and stops before any aggregate is
computed; otherwise the KPI aggregates are computed over the view. -/
def runDashboard (df : List Listing) (c : FilterCriteria) : Except DashError KPI :=
  let v := df_filtered df c
  if v.isEmpty then .error .emptyFilterResult
  else .ok (computeKPI v)

/-- The five active predicates as the spec states them, for comparison with
the code's `rowMatches`: city membership, price within inclusive bounds, area
within inclusive bounds, bedrooms at least the minimum, bathrooms at least
the minimum (a `NaN` cell fails the comparison that mentions it). -/
def SatisfiesAllPredicates (c : FilterCriteria) (r : Listing) : Prop :=
  (∃ s, r.city = some s ∧ s ∈ c.filter_kota) ∧
  (∃ p, r.price = some p ∧ c.price_lo ≤ p ∧ p ≤ c.price_hi) ∧
  (∃ a, r.area = some a ∧ c.area_lo ≤ a ∧ a ≤ c.area_hi) ∧
  (∃ b, r.bedrooms = some b ∧ c.filter_bedrooms ≤ b) ∧
  (∃ b, r.bathrooms = some b ∧ c.filter_bathrooms ≤ b)

/-! ## Concrete example data used by the witnesses -/

/-- A fully populated example listing. -/
def exListing : Listing :=
  { city := some "Jakarta".toList
    location := some "Kemang".toList
    title := some "Rumah".toList
    price := some 1000
    area := some 100
    building_area := some 80
    bedrooms := some 3
    bathrooms := some 2
    garage := some 1
    price_per_m2 := some 10 }

/-- Filter criteria whose selected-city set is empty (everything else wide
open). -/
def exCritNoCity : FilterCriteria :=
  { filter_kota := []
    price_lo := 0
    price_hi := 10000
    area_lo := 0
    area_hi := 1000
    filter_bedrooms := 0
    filter_bathrooms := 0
    keyword := [] }

/-- A raw CSV row whose cells all parse. -/
def exRaw : RawListing :=
  { city := some "Jakarta".toList
    location := some "Kemang".toList
    title := some "Rumah".toList
    price := .num 500
    area := .num 50
    building_area := .num 40
    bedrooms := .num 3
    bathrooms := .num 2
    garage := .num 1 }

/-- A raw CSV row whose price cell is unparsable. -/
def exRawBad : RawListing :=
  { city := some "Depok".toList
    location := some "Margonda".toList
    title := some "Rumah murah".toList
    price := .malformed
    area := .num 60
    building_area := .num 45
    bedrooms := .num 2
    bathrooms := .num 1
    garage := .num 0 }

/-! ## Annuity mathematics: geometric-sum lemmas for the payment formula -/

theorem annuityFactor_nonneg {i : ℚ} (hi : 0 < i) : ∀ n, 0 ≤ annuityFactor i n
  | 0 => le_refl 0
  | n + 1 => by
    have h1 : (0:ℚ) < 1 + i := by linarith
    have := annuityFactor_nonneg hi n
    have hterm : (0:ℚ) < ((1 + i) ^ (n + 1))⁻¹ := by positivity
    simp only [annuityFactor]
    linarith

theorem annuityFactor_pos {i : ℚ} (hi : 0 < i) {n : ℕ} (hn : 1 ≤ n) :
    0 < annuityFactor i n := by
  obtain ⟨m, rfl⟩ : ∃ m, n = m + 1 := ⟨n - 1, by omega⟩
  have h1 : (0:ℚ) < 1 + i := by linarith
  have hterm : (0:ℚ) < ((1 + i) ^ (m + 1))⁻¹ := by positivity
  have := annuityFactor_nonneg hi m
  simp only [annuityFactor]
  linarith

/-- Key identity: `1 - (1+i)^(-n) = i * annuityFactor i n` (the geometric-sum
closed form of the annuity denominator). -/
theorem one_sub_inv_pow_eq {i : ℚ} (hi : 0 < i) :
    ∀ n : ℕ, 1 - ((1 + i) ^ n)⁻¹ = i * annuityFactor i n
  | 0 => by simp [annuityFactor]
  | n + 1 => by
    have h1 : (0:ℚ) < 1 + i := by linarith
    have hne : (1 + i) ≠ 0 := ne_of_gt h1
    have hpn : (1 + i) ^ n ≠ 0 := pow_ne_zero _ hne
    have hpsn : (1 + i) ^ (n + 1) ≠ 0 := pow_ne_zero _ hne
    have ih := one_sub_inv_pow_eq hi n
    simp only [annuityFactor, mul_add]
    rw [← ih]
    field_simp
    ring

/-- The annuity denominator written with the `zpow` of the source code equals
`i * annuityFactor i n`. -/
theorem annuity_denominator_eq {i : ℚ} (hi : 0 < i) (n : ℕ) :
    1 - (1 + i) ^ (-(n : ℤ)) = i * annuityFactor i n := by
  rw [zpow_neg, zpow_natCast]
  exact one_sub_inv_pow_eq hi n

/-- The annuity payment `P * i / (1 - (1+i)^(-n))` equals
`P / annuityFactor i n` whenever the monthly rate is positive. -/
theorem annuity_payment_eq (P : ℚ) {i : ℚ} (hi : 0 < i) (n : ℕ) :
    P * i / (1 - (1 + i) ^ (-(n : ℤ))) = P / annuityFactor i n := by
  rw [annuity_denominator_eq hi n, mul_comm P i, mul_div_mul_left _ _ (ne_of_gt hi)]

/-- `annuityFactor` is strictly decreasing in the rate (for at least one
month): each term `(1+i)^(-k)` strictly decreases as `i` grows. -/
theorem annuityFactor_strictAnti {i₁ i₂ : ℚ} (h1 : 0 < i₁) (h12 : i₁ < i₂) :
    ∀ n : ℕ, annuityFactor i₂ (n + 1) < annuityFactor i₁ (n + 1)
  | 0 => by
    have hb1 : (0:ℚ) < 1 + i₁ := by linarith
    have hlt : (1 + i₁) ^ (0 + 1) < (1 + i₂) ^ (0 + 1) := by
      simpa using show (1 + i₁ : ℚ) < 1 + i₂ by linarith
    have hp1 : (0:ℚ) < (1 + i₁) ^ (0 + 1) := by positivity
    simpa [annuityFactor] using inv_strictAnti₀ hp1 hlt
  | n + 1 => by
    have hb1 : (0:ℚ) < 1 + i₁ := by linarith
    have hbase : (1 + i₁ : ℚ) < 1 + i₂ := by linarith
    have hlt : (1 + i₁) ^ (n + 2) < (1 + i₂) ^ (n + 2) :=
      pow_lt_pow_left₀ hbase (le_of_lt hb1) (by omega)
    have hp1 : (0:ℚ) < (1 + i₁) ^ (n + 2) := by positivity
    have hterm : ((1 + i₂) ^ (n + 2))⁻¹ < ((1 + i₁) ^ (n + 2))⁻¹ :=
      inv_strictAnti₀ hp1 hlt
    have ih := annuityFactor_strictAnti h1 h12 n
    simp only [annuityFactor] at ih ⊢
    exact add_lt_add ih hterm

theorem annuityFactor_anti {i₁ i₂ : ℚ} (h1 : 0 < i₁) (h12 : i₁ < i₂)
    {n : ℕ} (hn : 1 ≤ n) : annuityFactor i₂ n < annuityFactor i₁ n := by
  obtain ⟨m, rfl⟩ : ∃ m, n = m + 1 := ⟨n - 1, by omega⟩
  exact annuityFactor_strictAnti h1 h12 m

/-- `annuityFactor` is strictly increasing in the number of months. -/
theorem annuityFactor_strictMono {i : ℚ} (hi : 0 < i) :
    StrictMono (annuityFactor i) := by
  apply strictMono_nat_of_lt_succ
  intro n
  have h1 : (0:ℚ) < 1 + i := by linarith
  have hterm : (0:ℚ) < ((1 + i) ^ (n + 1))⁻¹ := by positivity
  simp only [annuityFactor]
  linarith

/-! ## Field-level characterizations of `hitungKPR` -/

theorem hitungKPR_pokok (hj dp bt : ℚ) (ty : ℕ) :
    (hitungKPR hj dp bt ty).pokok_pinjaman = hj * 1000000 - hj * 1000000 * dp / 100 := by
  simp [hitungKPR]

theorem hitungKPR_cicilan_pos_rate (hj dp : ℚ) {bt : ℚ} (ty : ℕ) (hbt : 0 < bt) :
    (hitungKPR hj dp bt ty).cicilan_bulanan =
      (hj * 1000000 - hj * 1000000 * dp / 100) / annuityFactor (bt / 12 / 100) (ty * 12) := by
  have hi : 0 < bt / 12 / 100 := by positivity
  simp only [hitungKPR, if_pos hi]
  exact annuity_payment_eq _ hi _

/-! ## Claims about the annuity calculator -/

/-- Claim C1: for every price in millions, down-payment percentage, annual
rate percentage with positive monthly rate, and tenor in years, the calculator
converts the price by a factor of 1,000,000 and computes the down payment,
principal, monthly rate, month count, monthly payment (by the annuity
formula), total paid, and total interest exactly as the spec formulas state. -/
theorem annuity_computes_spec_formulas (hj dp bt : ℚ) (ty : ℕ)
    (hhj : 0 < hj) (hrate : 0 < bt / 12 / 100) :
    ∃ r : HasilKPR, simulasiKPR hj dp bt ty = .ok r ∧
      r.harga_rumah_rp = hj * 1000000 ∧
      r.dp_rp = hj * 1000000 * dp / 100 ∧
      r.pokok_pinjaman = hj * 1000000 - hj * 1000000 * dp / 100 ∧
      r.i_bulanan = bt / 12 / 100 ∧
      r.n_bulan = ty * 12 ∧
      r.cicilan_bulanan =
        r.pokok_pinjaman * r.i_bulanan /
          (1 - (1 + r.i_bulanan) ^ (-(r.n_bulan : ℤ))) ∧
      r.total_bayar = r.cicilan_bulanan * (r.n_bulan : ℚ) ∧
      r.total_bunga = r.total_bayar - r.pokok_pinjaman := by
  refine ⟨hitungKPR hj dp bt ty, ?_, ?_, ?_, ?_, ?_, ?_, ?_, ?_, ?_⟩
  · simp [simulasiKPR, not_le.mpr hhj]
  · simp [hitungKPR]
  · simp [hitungKPR]
  · simp [hitungKPR]
  · simp [hitungKPR]
  · simp [hitungKPR]
  · simp only [hitungKPR, if_pos hrate]
  · simp [hitungKPR]
  · simp [hitungKPR]

/-- Witness for C1 at the spec's own scenario (price 1000 million, 20% down
payment, 8% annual rate, 15-year tenor). -/
theorem annuity_computes_spec_formulas_witness :
    ∃ r : HasilKPR, simulasiKPR 1000 20 8 15 = .ok r ∧
      r.harga_rumah_rp = 1000 * 1000000 ∧
      r.dp_rp = 1000 * 1000000 * 20 / 100 ∧
      r.pokok_pinjaman = 1000 * 1000000 - 1000 * 1000000 * 20 / 100 ∧
      r.i_bulanan = 8 / 12 / 100 ∧
      r.n_bulan = 15 * 12 ∧
      r.cicilan_bulanan =
        r.pokok_pinjaman * r.i_bulanan /
          (1 - (1 + r.i_bulanan) ^ (-(r.n_bulan : ℤ))) ∧
      r.total_bayar = r.cicilan_bulanan * (r.n_bulan : ℚ) ∧
      r.total_bunga = r.total_bayar - r.pokok_pinjaman :=
  annuity_computes_spec_formulas 1000 20 8 15 (by norm_num) (by norm_num)

/-- Claim C2 (code evaluated at the failing input): with a 100% down payment
the code does not signal an invalid-input error.  It proceeds to the annuity
division with a zero principal and shows the numeric output
`cicilan_bulanan = 0` (and the later ratio display `total_bunga /
pokok_pinjaman`, line 438, then divides by zero and raises in Python).  The
spec instead requires an `InvalidLoanInput` signal with no division and no
numeric output. -/
theorem dp100_no_error_signaled :
    simulasiKPR 1000 100 8 15 = .ok (hitungKPR 1000 100 8 15) ∧
      (hitungKPR 1000 100 8 15).pokok_pinjaman = 0 ∧
      (hitungKPR 1000 100 8 15).cicilan_bulanan = 0 := by
  refine ⟨by simp [simulasiKPR], by norm_num [hitungKPR], ?_⟩
  have hrate : (0:ℚ) < 8 := by norm_num
  rw [hitungKPR_cicilan_pos_rate 1000 100 15 hrate]
  norm_num

/-- Claim C7: with a fixed positive principal and positive monthly rate, the
monthly payment strictly increases in the annual rate; with a fixed positive
principal and positive rate it strictly decreases in the tenor in years. -/
theorem annuity_monotonicity (hj dp r₁ r₂ : ℚ) (t₁ t₂ : ℕ)
    (hpok : 0 < (hitungKPR hj dp r₁ t₁).pokok_pinjaman)
    (hr₁ : 0 < r₁) (hr₁₂ : r₁ < r₂) (ht₁ : 1 ≤ t₁) (ht₁₂ : t₁ < t₂) :
    (hitungKPR hj dp r₁ t₁).cicilan_bulanan < (hitungKPR hj dp r₂ t₁).cicilan_bulanan ∧
    (hitungKPR hj dp r₁ t₂).cicilan_bulanan < (hitungKPR hj dp r₁ t₁).cicilan_bulanan := by
  have hr₂ : 0 < r₂ := lt_trans hr₁ hr₁₂
  have hP : 0 < hj * 1000000 - hj * 1000000 * dp / 100 := by
    have := hpok; rwa [hitungKPR_pokok] at this
  have hi₁ : 0 < r₁ / 12 / 100 := by positivity
  have hi₂ : 0 < r₂ / 12 / 100 := by positivity
  have hi₁₂ : r₁ / 12 / 100 < r₂ / 12 / 100 := by
    apply div_lt_div_of_pos_right _ (by norm_num)
    exact div_lt_div_of_pos_right hr₁₂ (by norm_num)
  have hn₁ : 1 ≤ t₁ * 12 := by omega
  have hn₂ : 1 ≤ t₂ * 12 := by omega
  have hn₁₂ : t₁ * 12 < t₂ * 12 := by omega
  constructor
  · rw [hitungKPR_cicilan_pos_rate hj dp t₁ hr₁, hitungKPR_cicilan_pos_rate hj dp t₁ hr₂]
    exact div_lt_div_of_pos_left hP
      (annuityFactor_pos hi₂ hn₁)
      (annuityFactor_anti hi₁ hi₁₂ hn₁)
  · rw [hitungKPR_cicilan_pos_rate hj dp t₁ hr₁, hitungKPR_cicilan_pos_rate hj dp t₂ hr₁]
    exact div_lt_div_of_pos_left hP
      (annuityFactor_pos hi₁ hn₁)
      (annuityFactor_strictMono hi₁ hn₁₂)

/-- Witness for C7: raising the rate from 8% to 9% raises the payment, and
stretching the tenor from 15 to 16 years lowers it, at price 1000 million and
20% down payment. -/
theorem annuity_monotonicity_witness :
    (hitungKPR 1000 20 8 15).cicilan_bulanan < (hitungKPR 1000 20 9 15).cicilan_bulanan ∧
    (hitungKPR 1000 20 8 16).cicilan_bulanan < (hitungKPR 1000 20 8 15).cicilan_bulanan :=
  annuity_monotonicity 1000 20 8 9 15 16
    (by norm_num [hitungKPR]) (by norm_num) (by norm_num) (by norm_num) (by norm_num)

/-- Claim C8: with a zero annual rate (hence zero monthly rate) and a positive
principal and month count, the calculator takes the linear branch
`cicilan = pokok / n_bulan`, and the total paid recovers the principal
exactly, so the total interest is exactly zero. -/
theorem zero_rate_payment (hj dp : ℚ) (ty : ℕ)
    (_hpok : 0 < (hitungKPR hj dp 0 ty).pokok_pinjaman) (hty : 0 < ty) :
    (hitungKPR hj dp 0 ty).cicilan_bulanan =
      (hitungKPR hj dp 0 ty).pokok_pinjaman / ((hitungKPR hj dp 0 ty).n_bulan : ℚ) ∧
    (hitungKPR hj dp 0 ty).total_bayar = (hitungKPR hj dp 0 ty).pokok_pinjaman ∧
    (hitungKPR hj dp 0 ty).total_bunga = 0 := by
  have hi : ¬ (0 : ℚ) < 0 / 12 / 100 := by norm_num
  have hn : ((ty * 12 : ℕ) : ℚ) ≠ 0 := by
    have : (0:ℕ) < ty * 12 := by omega
    exact_mod_cast Nat.pos_iff_ne_zero.mp this
  refine ⟨by simp [hitungKPR, hi], ?_, ?_⟩
  · simp only [hitungKPR, if_neg hi]
    exact div_mul_cancel₀ _ hn
  · simp only [hitungKPR, if_neg hi]
    rw [div_mul_cancel₀ _ hn, sub_self]

/-- Witness for C8 at price 100 million, no down payment, one-year tenor. -/
theorem zero_rate_payment_witness :
    (hitungKPR 100 0 0 1).cicilan_bulanan =
      (hitungKPR 100 0 0 1).pokok_pinjaman / ((hitungKPR 100 0 0 1).n_bulan : ℚ) ∧
    (hitungKPR 100 0 0 1).total_bayar = (hitungKPR 100 0 0 1).pokok_pinjaman ∧
    (hitungKPR 100 0 0 1).total_bunga = 0 :=
  zero_rate_payment 100 0 1 (by norm_num [hitungKPR]) (by norm_num)

/-! ## Claims about the filter engine -/

theorem rowMatches_iff (c : FilterCriteria) (r : Listing) :
    rowMatches c r = true ↔ SatisfiesAllPredicates c r := by
  unfold rowMatches SatisfiesAllPredicates isinOpt betweenOpt geOpt
  cases r.city <;> cases r.price <;> cases r.area <;>
    cases r.bedrooms <;> cases r.bathrooms <;> simp
  tauto

/-- Claim C3: for every normalized dataset and filter criteria, the filtered
view is a subset of the dataset, and a row of the dataset belongs to the view
exactly when it satisfies the conjunction of all five active predicates (so
every row in the view satisfies them all, and every dataset row left out
fails at least one). -/
theorem filtered_view_characterization (df : List Listing) (c : FilterCriteria)
    (r : Listing) :
    (baseFilter df c).Sublist df ∧
    (r ∈ baseFilter df c ↔ r ∈ df ∧ SatisfiesAllPredicates c r) := by
  refine ⟨List.filter_sublist df, ?_⟩
  rw [baseFilter, List.mem_filter, rowMatches_iff]

/-- Witness for C3 on a concrete one-row dataset and concrete criteria. -/
theorem filtered_view_characterization_witness :
    (baseFilter [exListing] exCritNoCity).Sublist [exListing] ∧
    (exListing ∈ baseFilter [exListing] exCritNoCity ↔
      exListing ∈ [exListing] ∧ SatisfiesAllPredicates exCritNoCity exListing) :=
  filtered_view_characterization [exListing] exCritNoCity exListing

/-- Claim C4: an empty selected-city set matches no rows (no exception is
possible in the embedding: the filter is a total function), and whenever the
filtered view is empty the render pass stops with the empty-result signal
instead of producing any KPI aggregates. -/
theorem empty_city_and_empty_view (df : List Listing) (c : FilterCriteria) :
    (c.filter_kota = [] → df_filtered df c = []) ∧
    (df_filtered df c = [] →
      runDashboard df c = Except.error DashError.emptyFilterResult) := by
  constructor
  · intro h
    have hbase : baseFilter df c = [] := by
      rw [baseFilter, List.filter_eq_nil_iff]
      intro a _
      simp only [rowMatches, isinOpt, h]
      cases a.city <;> simp
    rw [df_filtered, hbase, applyKeyword]
    split <;> simp
  · intro h
    simp [runDashboard, h]

/-- Witness for C4 on a one-row dataset with an empty city selection. -/
theorem empty_city_and_empty_view_witness :
    df_filtered [exListing] exCritNoCity = [] ∧
    runDashboard [exListing] exCritNoCity =
      Except.error DashError.emptyFilterResult := by
  have h := empty_city_and_empty_view [exListing] exCritNoCity
  exact ⟨h.1 rfl, h.2 (h.1 rfl)⟩

/-- Claim C6 (code evaluated at the failing input): the spec reads the
keyword test as a literal case-insensitive substring check, but pandas
`Series.str.contains` defaults to `regex=True`, so the keyword is a regular
expression.  At keyword `"."` on the title `"rumah besar"` (which contains no
literal dot) the regex test keeps the row while the literal-substring test
drops it. -/
theorem keyword_regex_divergence :
    pyStrip ".".toList = ".".toList ∧
    fieldContainsRegexDot (pyLower (pyStrip ".".toList))
      (some "rumah besar".toList) = true ∧
    fieldContains (pyLower (pyStrip ".".toList))
      (some "rumah besar".toList) = false := by
  refine ⟨by decide, by decide, by decide⟩

/-- Claim C9: for every row of the normalized dataset, `price_per_m2` is
`price / area` when `area > 0` (null price propagating to null) and null
otherwise; it is fixed at load time (rows of every filtered view are rows of
the dataset, unchanged); and for a row with `area > 0` and a non-null price,
`price_per_m2 * area` recovers `price` exactly. -/
theorem price_per_m2_spec (raw : List RawListing) (r : Listing) (a p : ℚ)
    (hr : r ∈ load_data raw) :
    (r.area = some a → 0 < a → r.price_per_m2 = r.price.map (fun q => q / a)) ∧
    (r.area = some a → ¬ 0 < a → r.price_per_m2 = none) ∧
    (r.area = none → r.price_per_m2 = none) ∧
    (r.area = some a → 0 < a → r.price = some p →
      r.price_per_m2.map (fun q => q * a) = some p) ∧
    (∀ c, ∀ x ∈ df_filtered (load_data raw) c, x ∈ load_data raw) := by
  obtain ⟨w, -, rfl⟩ := List.mem_map.mp hr
  have hpp : (normalizeRow w).price_per_m2 =
      pricePerM2 (normalizeRow w).price (normalizeRow w).area := rfl
  refine ⟨?_, ?_, ?_, ?_, ?_⟩
  · intro ha hpos
    rw [hpp, ha, pricePerM2, if_pos hpos]
  · intro ha hneg
    rw [hpp, ha, pricePerM2, if_neg hneg]
  · intro ha
    rw [hpp, ha, pricePerM2]
  · intro ha hpos hpr
    rw [hpp, ha, pricePerM2, if_pos hpos, hpr]
    simp only [Option.map_some, Option.map_map]
    exact congrArg some (div_mul_cancel₀ p (ne_of_gt hpos))
  · intro c x hx
    have hx' : x ∈ baseFilter (load_data raw) c := by
      rw [df_filtered, applyKeyword] at hx
      split at hx
      · exact hx
      · exact (List.mem_filter.mp hx).1
    exact (List.mem_filter.mp hx').1

/-- Witness for C9 on a one-row dataset with area 50 and price 500. -/
theorem price_per_m2_spec_witness :
    ((normalizeRow exRaw).area = some 50 → 0 < (50:ℚ) →
      (normalizeRow exRaw).price_per_m2 =
        (normalizeRow exRaw).price.map (fun q => q / 50)) ∧
    ((normalizeRow exRaw).area = some 50 → ¬ 0 < (50:ℚ) →
      (normalizeRow exRaw).price_per_m2 = none) ∧
    ((normalizeRow exRaw).area = none → (normalizeRow exRaw).price_per_m2 = none) ∧
    ((normalizeRow exRaw).area = some 50 → 0 < (50:ℚ) →
      (normalizeRow exRaw).price = some 500 →
      (normalizeRow exRaw).price_per_m2.map (fun q => q * 50) = some 500) ∧
    (∀ c, ∀ x ∈ df_filtered (load_data [exRaw]) c, x ∈ load_data [exRaw]) :=
  price_per_m2_spec [exRaw] (normalizeRow exRaw) 50 500 (by simp [load_data])

/-- Claim C10: a row whose raw price cell is unparsable is coerced to a null
price, stays in the dataset (same length, same position, its text fields
intact), and null entries are excluded from the mean over that field rather
than being counted as zeros. -/
theorem malformed_numeric_coerced (raw : List RawListing) (i : ℕ) (w : RawListing)
    (hw : raw[i]? = some w) (hbad : w.price = RawField.malformed) :
    (load_data raw).length = raw.length ∧
    (load_data raw)[i]? = some (normalizeRow w) ∧
    (normalizeRow w).price = none ∧
    (normalizeRow w).title = w.title ∧
    (normalizeRow w).city = w.city ∧
    (normalizeRow w).location = w.location ∧
    (∀ xs ys : List (Option ℚ), meanOpt (xs ++ none :: ys) = meanOpt (xs ++ ys)) := by
  refine ⟨by simp [load_data], ?_, ?_, rfl, rfl, rfl, ?_⟩
  · simp [load_data, hw]
  · simp [normalizeRow, hbad, toNumeric]
  · intro xs ys
    simp [meanOpt, List.filterMap_append]

/-- Witness for C10 on a one-row dataset whose price cell is unparsable. -/
theorem malformed_numeric_coerced_witness :
    (load_data [exRawBad]).length = [exRawBad].length ∧
    (load_data [exRawBad])[0]? = some (normalizeRow exRawBad) ∧
    (normalizeRow exRawBad).price = none ∧
    (normalizeRow exRawBad).title = exRawBad.title ∧
    (normalizeRow exRawBad).city = exRawBad.city ∧
    (normalizeRow exRawBad).location = exRawBad.location ∧
    (∀ xs ys : List (Option ℚ), meanOpt (xs ++ none :: ys) = meanOpt (xs ++ ys)) :=
  malformed_numeric_coerced [exRawBad] 0 exRawBad rfl rfl

end DashboardRumah
